import Mathlib

/-
Verification of the trackma pyinotify tracker
(src/trackma/tracker/pyinotify.py) against its specification.

The procfs interface (os.listdir, os.readlink, open/read, os.path.islink)
is modelled as a record of total/fallible functions (`Option`-valued where
the call can raise OSError; `os.path.islink` is total since it returns
False for absent paths rather than raising).  The external collaborators
`_get_playing_show` and `update_show_if_needed` are opaque parameters, as
the spec excludes them.  Emitted signals, submitted updates, and
process-table scans are recorded as explicit effect lists.
-/

namespace Trackma

/-- Bytes of an ASCII string, modelling Python `str.encode('utf-8')` for the
ASCII strings that occur here. -/
def strBytes (s : String) : List Nat := s.toList.map Char.toNat

/-- True when the first list is an initial segment of the second. -/
def leadMatch : List Nat → List Nat → Bool
  | [], _ => true
  | _ :: _, [] => false
  | a :: pr, b :: sr => a == b && leadMatch pr sr

/-- Substring search over byte lists: models `re.search` for a literal
pattern, as used by the tracker when the configured player pattern has no
regex metacharacters. -/
def hasSub (pat : List Nat) : List Nat → Bool
  | [] => leadMatch pat []
  | b :: rest => leadMatch pat (b :: rest) || hasSub pat rest

/-- Embedding of Python `str.isdigit`: nonempty and all characters digits. -/
def strIsDigit (s : String) : Bool := !s.toList.isEmpty && s.toList.all Char.isDigit

/-- True when the string's first character is a slash
(Python `s.startswith('/')`). -/
def headIsSlash (s : String) : Bool :=
  match s.toList with
  | [] => false
  | c :: _ => c == '/'

/-- True when the string's last character is a slash
(Python `s.endswith('/')`). -/
def lastIsSlash (s : String) : Bool :=
  match s.toList.getLast? with
  | none => false
  | some c => c == '/'

/-- Embedding of `os.path.join(path, name)` (POSIX, two arguments). -/
def joinPath (path name : String) : String :=
  if headIsSlash name then name
  else if path = "" || lastIsSlash path then path ++ name
  else path ++ "/" ++ name

/-- The directory `"/proc/%s/fd/" % p` used by `_is_being_played`. -/
def fdDir (p : String) : String := "/proc/" ++ p ++ "/fd/"

/-- The path `'/proc/%s/cmdline' % p`. -/
def cmdlinePath (p : String) : String := "/proc/" ++ p ++ "/cmdline"

/-- The path `"/proc/%s/fd/%s" % (pid, fd)` used by `_closed_handle`. -/
def fdLinkPath (pid fd : String) : String := "/proc/" ++ pid ++ "/fd/" ++ fd

/-- A snapshot of the procfs facility consumed by the tracker.  `entries`
is the listing of `/proc/`; `listFd`, `readlink` and `readFile` return
`none` where the corresponding OS call would raise `OSError`; `islink`
is total, matching `os.path.islink` which reports `False` for a missing
path instead of raising. -/
structure ProcFS where
  entries : List String
  listFd : String → Option (List String)
  readlink : String → Option String
  readFile : String → Option (List Nat)
  islink : String → Bool

/-- Embedding of `cmdline.partition(b'\x00')[0]`: the bytes before the
first null separator (the whole list when no null occurs). -/
def takeUntilNul (bs : List Nat) : List Nat := bs.takeWhile (fun b => b != 0)

/-- Outcome of walking one process's descriptor list inside the `try`
block of `_is_being_played`: a match returned, an `OSError` aborting this
process, or the list exhausted with no match. -/
inductive FdScan where
  | found (pid fd : String)
  | error
  | exhausted
  deriving DecidableEq

/-- Embedding of the inner `for fd in os.listdir(d)` loop of
`_is_being_played`: resolve each descriptor, and when the target equals
`filename` read the process's command line, take its first null-delimited
field and test it against the player pattern; a failing `readlink` or
command-line read raises `OSError`, which the surrounding `try` turns into
skipping this process. -/
def scanFds (fs : ProcFS) (matcher : List Nat → Bool) (filename p : String) :
    List String → FdScan
  | [] => FdScan.exhausted
  | fd :: rest =>
    match fs.readlink (fdDir p ++ fd) with
    | none => FdScan.error
    | some f =>
      if f = filename then
        match fs.readFile (cmdlinePath p) with
        | none => FdScan.error
        | some cmdline =>
          if matcher (takeUntilNul cmdline) then FdScan.found p fd
          else scanFds fs matcher filename p rest
      else scanFds fs matcher filename p rest

/-- Embedding of the outer `for p in os.listdir("/proc/")` loop of
`_is_being_played`: skip non-numeric entries, skip a process whose
descriptor listing raises, return the first match, and on an `OSError`
inside a process continue with the remaining processes. -/
def scanProcs (fs : ProcFS) (matcher : List Nat → Bool) (filename : String) :
    List String → Option (String × String)
  | [] => none
  | p :: rest =>
    if strIsDigit p then
      match fs.listFd (fdDir p) with
      | none => scanProcs fs matcher filename rest
      | some fds =>
        match scanFds fs matcher filename p fds with
        | FdScan.found pid fd => some (pid, fd)
        | FdScan.error => scanProcs fs matcher filename rest
        | FdScan.exhausted => scanProcs fs matcher filename rest
    else scanProcs fs matcher filename rest

/-- Embedding of `_is_being_played(filename)`; `(None, None)` is modelled
as `none`. -/
def is_being_played (fs : ProcFS) (matcher : List Nat → Bool) (filename : String) :
    Option (String × String) :=
  scanProcs fs matcher filename fs.entries

/-- Embedding of `_closed_handle(pid, fd)`:
`not os.path.islink("/proc/%s/fd/%s" % (pid, fd))`. -/
def closed_handle (fs : ProcFS) (pid fd : String) : Bool :=
  !fs.islink (fdLinkPath pid fd)

/-- The tracker's environment: the procfs snapshot, the compiled player
pattern `re_players` (an opaque byte-string matcher, since `re.compile`
is external), and the external show-resolution collaborator
`_get_playing_show`, returning an opaque (state, show-tuple) pair. -/
structure Env where
  procfs : ProcFS
  matcher : List Nat → Bool
  get_playing_show : Option String → Nat × Option (String × Nat)

/-- A signal emitted through `_emit_signal`. -/
inductive Signal where
  | detected (path name : String)
  | removed (path name : String)
  deriving DecidableEq

/-- Observable effects of one handler run: signals emitted, (state, show)
pairs forwarded to `update_show_if_needed`, and filenames for which a
process-correlation scan (`_is_being_played`) was performed. -/
structure Effects where
  signals : List Signal
  updates : List (Nat × Option (String × Nat))
  scans : List String
  deriving DecidableEq

/-- No observable effects. -/
def emptyEff : Effects := ⟨[], [], []⟩

/-- Concatenation of effect records, in execution order. -/
def appendEff (a b : Effects) : Effects :=
  ⟨a.signals ++ b.signals, a.updates ++ b.updates, a.scans ++ b.scans⟩

/-- The tracker's mutable slot `open_file`; the idle sentinel
`(None, None, None)` is modelled as `none`, and a tracked file as
`some (pathname, pid, fd)`. -/
structure TrackerState where
  open_file : Option (String × String × String)
  deriving DecidableEq

/-- Embedding of `_proc_open(path, name)`: when a file is already tracked
the event is dropped with no effect; otherwise the joined path is scanned
for a playing process, and on a match the tracker emits `detected`,
records the file, resolves the show from `name` and forwards the result
to the update collaborator. -/
def proc_open (env : Env) (st : TrackerState) (path name : String) :
    TrackerState × Effects :=
  let pathname := joinPath path name
  match st.open_file with
  | some _ => (st, emptyEff)
  | none =>
    match is_being_played env.procfs env.matcher pathname with
    | some (pid, fd) =>
      (⟨some (pathname, pid, fd)⟩,
       ⟨[Signal.detected path name], [env.get_playing_show (some name)], [pathname]⟩)
    | none => (⟨none⟩, ⟨[], [], [pathname]⟩)

/-- Embedding of `_proc_close(path, name)`: a close for a non-tracked path
(including the idle case, where the tracked path is the `None` sentinel
and never equals a joined path) returns with no effect; a close whose
descriptor is still open returns with no effect; otherwise the tracker
emits `detected`, clears the slot, resolves the show from `None` and
forwards the result.  The `time.sleep(0.1)` grace delay has no observable
effect in this model and is not represented. -/
def proc_close (env : Env) (st : TrackerState) (path name : String) :
    TrackerState × Effects :=
  let pathname := joinPath path name
  match st.open_file with
  | none => (st, emptyEff)
  | some (open_pathname, pid, fd) =>
    if pathname ≠ open_pathname then (st, emptyEff)
    else if closed_handle env.procfs pid fd = false then (st, emptyEff)
    else
      (⟨none⟩,
       ⟨[Signal.detected path name], [env.get_playing_show none], []⟩)

/-- The event kinds watched by `observe` (the registered inotify mask). -/
inductive EventKind where
  | Open
  | CloseNoWrite
  | CloseWrite
  | Create
  | MovedTo
  | MovedFrom
  | Delete
  deriving DecidableEq

/-- A filesystem event as delivered to the `EventHandler` methods. -/
structure WatchEvent where
  kind : EventKind
  path : String
  name : String
  isDir : Bool
  deriving DecidableEq

/-- Embedding of the `EventHandler` dispatch: every `process_IN_*` method
first discards directory-flagged events, then `IN_OPEN` goes to
`_proc_open`, both close kinds go to `_proc_close`, `IN_CREATE` and
`IN_MOVED_TO` emit `detected`, and `IN_MOVED_FROM` and `IN_DELETE` emit
`removed`. -/
def processEvent (env : Env) (st : TrackerState) (ev : WatchEvent) :
    TrackerState × Effects :=
  if ev.isDir then (st, emptyEff)
  else
    match ev.kind with
    | EventKind.Open => proc_open env st ev.path ev.name
    | EventKind.CloseNoWrite => proc_close env st ev.path ev.name
    | EventKind.CloseWrite => proc_close env st ev.path ev.name
    | EventKind.Create => (st, ⟨[Signal.detected ev.path ev.name], [], []⟩)
    | EventKind.MovedTo => (st, ⟨[Signal.detected ev.path ev.name], [], []⟩)
    | EventKind.MovedFrom => (st, ⟨[Signal.removed ev.path ev.name], [], []⟩)
    | EventKind.Delete => (st, ⟨[Signal.removed ev.path ev.name], [], []⟩)

/-- Sequential processing of a list of events, accumulating effects. -/
def processEvents (env : Env) : TrackerState → List WatchEvent → TrackerState × Effects
  | st, [] => (st, emptyEff)
  | st, e :: rest =>
    let r1 := processEvent env st e
    let r2 := processEvents env r1.1 rest
    (r2.1, appendEff r1.2 r2.2)

/-- Modelled from the spec: the distinguished "no video" value of the
inherited `lastState` field (`utils.TRACKER_NOVIDEO`, defined outside this
core); only its identity as a fixed constant matters here. -/
def TRACKER_NOVIDEO : Nat := 0

/-- The inherited runtime fields read by the watch loop:
`last_state`, `last_updated` and `last_show_tuple`. -/
structure RuntimeView where
  last_state : Nat
  last_updated : Bool
  last_show : Option (String × Nat)
  deriving DecidableEq

/-- State carried across watch-loop iterations: the timeout that will be
passed to the next `check_events` call (`none` blocks indefinitely,
`some 1000` is the one-second poll), and the runtime view. -/
structure LoopSt where
  timeout : Option Nat
  rs : RuntimeView

/-- One iteration's input: either `check_events` returned events, whose
processing mutates the runtime view by some external effect, or the wait
timed out with no events. -/
inductive LoopInput where
  | events (eff : RuntimeView → RuntimeView)
  | timeout

/-- Embedding of one iteration of the `while self.active` loop body of
`observe`, parameterised by `upd`, the external effect of
`update_show_if_needed` on the runtime view.  When events were read and
processed, the timeout is recomputed: indefinite when `last_state` is
`TRACKER_NOVIDEO` or `last_updated` holds, one second otherwise.  When the
wait timed out, the last (state, show) pair is re-submitted and the
timeout variable is left unchanged.  The second component lists the pairs
the loop itself submitted this iteration. -/
def loop_iter (upd : Nat × Option (String × Nat) → RuntimeView → RuntimeView)
    (input : LoopInput) (s : LoopSt) : LoopSt × List (Nat × Option (String × Nat)) :=
  match input with
  | LoopInput.events eff =>
    let rs2 := eff s.rs
    (⟨if rs2.last_state == TRACKER_NOVIDEO || rs2.last_updated then none else some 1000,
      rs2⟩, [])
  | LoopInput.timeout =>
    (⟨s.timeout, upd (s.rs.last_state, s.rs.last_show) s.rs⟩,
     [(s.rs.last_state, s.rs.last_show)])

/-- Input to a whole loop run: a normal iteration, or an exception raised
during watch polling or event processing. -/
inductive ObserveInput where
  | step (i : LoopInput)
  | fail

/-- The `try` block of `observe`: iterate until the `active` flag clears
(the input list is exhausted) or an exception is raised. -/
def observe_loop (upd : Nat × Option (String × Nat) → RuntimeView → RuntimeView) :
    LoopSt → List ObserveInput → Except Unit LoopSt
  | s, [] => Except.ok s
  | _, ObserveInput.fail :: _ => Except.error ()
  | s, ObserveInput.step i :: rest => observe_loop upd (loop_iter upd i s).1 rest

/-- Outcome of a full `observe` run: the loop's result (normal exit or a
propagated exception) together with whether `notifier.stop()` ran. -/
structure ObserveResult where
  outcome : Except Unit LoopSt
  notifier_stopped : Bool

/-- Embedding of `observe`'s `try ... finally notifier.stop()`: the loop
starts with `timeout = None`, and the notifier is stopped after the loop
regardless of whether it ended normally or with an exception, before that
outcome is surfaced. -/
def observe_run (upd : Nat × Option (String × Nat) → RuntimeView → RuntimeView)
    (rs0 : RuntimeView) (inputs : List ObserveInput) : ObserveResult :=
  ⟨observe_loop upd ⟨none, rs0⟩ inputs, true⟩

/-! Concrete procfs snapshots and environments used to exercise the
definitions on the spec's scenarios. -/

/-- Command line `b"/usr/bin/mpv\x00--fullscreen"`. -/
def mpvCmdline : List Nat := strBytes "/usr/bin/mpv" ++ 0 :: strBytes "--fullscreen"

/-- Command line `b"/usr/bin/vlc\x00mpv"`: the player pattern occurs only
in an argument, not in the executable field. -/
def vlcArgvCmdline : List Nat := strBytes "/usr/bin/vlc" ++ 0 :: strBytes "mpv"

/-- Command line `b"/usr/bin/vlc\x00video.mkv"`. -/
def vlcCmdline : List Nat := strBytes "/usr/bin/vlc" ++ 0 :: strBytes "video.mkv"

/-- The compiled pattern `mpv`. -/
def matcherMpv : List Nat → Bool := hasSub (strBytes "mpv")

/-- Process table of the spec's correlator scenario: pid 42 with
descriptor 5 resolving to `/media/show.mkv`, command line mpv. -/
def procfsC4 : ProcFS :=
  ⟨["42"],
   fun d => if d = fdDir "42" then some ["5"] else none,
   fun q => if q = fdDir "42" ++ "5" then some "/media/show.mkv" else none,
   fun q => if q = cmdlinePath "42" then some mpvCmdline else none,
   fun _ => false⟩

/-- Process table where the only process holding the file is vlc, with
`mpv` occurring only as an argument after the null separator. -/
def procfsVlcArgv : ProcFS :=
  ⟨["9"],
   fun d => if d = fdDir "9" then some ["4"] else none,
   fun q => if q = fdDir "9" ++ "4" then some "/media/show.mkv" else none,
   fun q => if q = cmdlinePath "9" then some vlcArgvCmdline else none,
   fun _ => false⟩

/-- Process table with per-process failures before a match: pid 41's
descriptor listing raises, pid 45's descriptor listing succeeds but its
readlink raises, pid 43 holds the file with an mpv command line. -/
def procfsErr : ProcFS :=
  ⟨["41", "45", "43"],
   fun d => if d = fdDir "43" then some ["6"]
     else if d = fdDir "45" then some ["9"] else none,
   fun q => if q = fdDir "43" ++ "6" then some "/media/show.mkv" else none,
   fun q => if q = cmdlinePath "43" then some mpvCmdline else none,
   fun _ => false⟩

/-- Process table where every per-process access fails. -/
def procfsAllFail : ProcFS :=
  ⟨["50", "51"], fun _ => none, fun _ => none, fun _ => none, fun _ => false⟩

/-- Process table where pid 60 holds the file but its command line is
unreadable. -/
def procfsCmdFail : ProcFS :=
  ⟨["60"],
   fun d => if d = fdDir "60" then some ["2"] else none,
   fun q => if q = fdDir "60" ++ "2" then some "/media/show.mkv" else none,
   fun _ => none,
   fun _ => false⟩

/-- Process table where pid 40 (vlc, no pattern match) holds the target
file on descriptor 3 and another file on descriptor 8, and pid 44 (mpv)
holds the target file on descriptor 7. -/
def procfsVlcThenMpv : ProcFS :=
  ⟨["40", "44"],
   fun d => if d = fdDir "40" then some ["3", "8"]
     else if d = fdDir "44" then some ["7"] else none,
   fun q => if q = fdDir "40" ++ "3" then some "/media/show.mkv"
     else if q = fdDir "40" ++ "8" then some "/media/other.mkv"
     else if q = fdDir "44" ++ "7" then some "/media/show.mkv" else none,
   fun q => if q = cmdlinePath "40" then some vlcCmdline
     else if q = cmdlinePath "44" then some mpvCmdline else none,
   fun _ => false⟩

/-- Environment with an empty process table except that the descriptor
link `/proc/7/fd/3` exists (still open) while `/proc/8/fd/4` does not. -/
def envW : Env :=
  ⟨⟨[], fun _ => none, fun _ => none, fun _ => none,
    fun d => d == fdLinkPath "7" "3"⟩,
   fun _ => false,
   fun _ => (0, none)⟩

/-- C2: while a file is tracked (`open_file` set), every further
open-candidate is a no-op: the tracked record is unchanged and not
replaced, no process-correlation scan is performed, no signal is emitted
and no update is submitted — and the same holds across any sequence of
back-to-back open events, so at most one tracked record ever exists. -/
theorem single_tracking_invariant (env : Env) (r : String × String × String)
    (p n : String) (qs : List (String × String)) :
    proc_open env ⟨some r⟩ p n = (⟨some r⟩, emptyEff) ∧
    processEvents env ⟨some r⟩
      (qs.map (fun q => ⟨EventKind.Open, q.1, q.2, false⟩)) = (⟨some r⟩, emptyEff) := by
  refine ⟨rfl, ?_⟩
  induction qs with
  | nil => rfl
  | cons q rest ih =>
    simp [processEvents, processEvent, proc_open, ih, appendEff, emptyEff]

/-- C3: a close-candidate is a no-op when the tracker is idle, when the
joined path differs from the tracked path, or when the handle is still
open; otherwise it emits `detected`, clears the record, resolves the show
with `None` and forwards the result; and repeated close-candidates after
the transition to idle are no-ops. -/
theorem proc_close_cases (env : Env) (p n op pid fd : String) :
    proc_close env ⟨none⟩ p n = (⟨none⟩, emptyEff) ∧
    (joinPath p n ≠ op →
      proc_close env ⟨some (op, pid, fd)⟩ p n = (⟨some (op, pid, fd)⟩, emptyEff)) ∧
    (closed_handle env.procfs pid fd = false →
      proc_close env ⟨some (joinPath p n, pid, fd)⟩ p n =
        (⟨some (joinPath p n, pid, fd)⟩, emptyEff)) ∧
    (closed_handle env.procfs pid fd = true →
      proc_close env ⟨some (joinPath p n, pid, fd)⟩ p n =
        (⟨none⟩, ⟨[Signal.detected p n], [env.get_playing_show none], []⟩)) ∧
    (∀ qs : List (String × String),
      processEvents env ⟨none⟩
        (qs.map (fun q => ⟨EventKind.CloseWrite, q.1, q.2, false⟩)) =
        (⟨none⟩, emptyEff)) := by
  refine ⟨rfl, ?_, ?_, ?_, ?_⟩
  · intro h; simp [proc_close, h]
  · intro h; simp [proc_close, h]
  · intro h; simp [proc_close, h]
  · intro qs
    induction qs with
    | nil => rfl
    | cons q rest ih =>
      simp [processEvents, processEvent, proc_close, ih, appendEff, emptyEff]

/-- Witness for `proc_close_cases` at concrete inputs: the mismatch case,
the still-open case (pid 7, fd 3 whose link exists), and the closed case
(pid 8, fd 4 whose link is absent). -/
theorem proc_close_cases_witness :
    joinPath "/a" "b.mkv" ≠ "/a/c.mkv" ∧
    closed_handle envW.procfs "7" "3" = false ∧
    closed_handle envW.procfs "8" "4" = true ∧
    proc_close envW ⟨some ("/a/c.mkv", "7", "3")⟩ "/a" "b.mkv" =
      (⟨some ("/a/c.mkv", "7", "3")⟩, emptyEff) ∧
    proc_close envW ⟨some (joinPath "/a" "b.mkv", "7", "3")⟩ "/a" "b.mkv" =
      (⟨some (joinPath "/a" "b.mkv", "7", "3")⟩, emptyEff) ∧
    proc_close envW ⟨some (joinPath "/a" "b.mkv", "8", "4")⟩ "/a" "b.mkv" =
      (⟨none⟩, ⟨[Signal.detected "/a" "b.mkv"], [envW.get_playing_show none], []⟩) :=
  ⟨by decide, by decide, by decide,
   (proc_close_cases envW "/a" "b.mkv" "/a/c.mkv" "7" "3").2.1 (by decide),
   (proc_close_cases envW "/a" "b.mkv" "x" "7" "3").2.2.1 (by decide),
   (proc_close_cases envW "/a" "b.mkv" "x" "8" "4").2.2.2.1 (by decide)⟩

/-- C5: an open-candidate received while idle, whose joined path the
correlator does not find held by any matching process, leaves the tracker
idle: no tracked record is created and no signal is emitted (only the
correlation scan itself is performed). -/
theorem open_not_played_noop (env : Env) (p n : String)
    (h : is_being_played env.procfs env.matcher (joinPath p n) = none) :
    proc_open env ⟨none⟩ p n = (⟨none⟩, ⟨[], [], [joinPath p n]⟩) := by
  simp [proc_open, h]

/-- Witness for `open_not_played_noop`: an open event for `show.mkv` with
an empty process table stays idle with no signal. -/
theorem open_not_played_noop_witness :
    is_being_played envW.procfs envW.matcher (joinPath "/media" "show.mkv") = none ∧
    proc_open envW ⟨none⟩ "/media" "show.mkv" =
      (⟨none⟩, ⟨[], [], [joinPath "/media" "show.mkv"]⟩) :=
  ⟨rfl, open_not_played_noop envW "/media" "show.mkv" rfl⟩

/-- C7: the handle-closure check returns true exactly when the
descriptor-to-file link no longer exists for that process; it is a total
boolean function of the link state (the underlying `os.path.islink`
reports an absent path — e.g. a vanished process — as `False` rather than
raising). -/
theorem closed_handle_iff (fs : ProcFS) (pid fd : String) :
    closed_handle fs pid fd = true ↔ fs.islink (fdLinkPath pid fd) = false := by
  unfold closed_handle
  cases fs.islink (fdLinkPath pid fd) <;> simp

/-- C8: the event dispatch is a stateless mapping: directory-flagged
events of any kind are discarded with no signal and no state change;
`IN_OPEN` goes to the open handler, both close kinds go to the same close
handler, `IN_CREATE` and `IN_MOVED_TO` emit `detected`, `IN_MOVED_FROM`
and `IN_DELETE` emit `removed`, and none of the latter four touch the
tracked-file state. -/
theorem event_classifier_spec (env : Env) (st : TrackerState) (k : EventKind) (p n : String) :
    processEvent env st ⟨k, p, n, true⟩ = (st, emptyEff) ∧
    processEvent env st ⟨EventKind.Open, p, n, false⟩ = proc_open env st p n ∧
    processEvent env st ⟨EventKind.CloseNoWrite, p, n, false⟩ = proc_close env st p n ∧
    processEvent env st ⟨EventKind.CloseWrite, p, n, false⟩ = proc_close env st p n ∧
    processEvent env st ⟨EventKind.Create, p, n, false⟩ =
      (st, ⟨[Signal.detected p n], [], []⟩) ∧
    processEvent env st ⟨EventKind.MovedTo, p, n, false⟩ =
      (st, ⟨[Signal.detected p n], [], []⟩) ∧
    processEvent env st ⟨EventKind.MovedFrom, p, n, false⟩ =
      (st, ⟨[Signal.removed p n], [], []⟩) ∧
    processEvent env st ⟨EventKind.Delete, p, n, false⟩ =
      (st, ⟨[Signal.removed p n], [], []⟩) :=
  ⟨rfl, rfl, rfl, rfl, rfl, rfl, rfl, rfl⟩

/-- C4: the correlator returns the first scanned process whose descriptor
resolves to the filename and whose command-line first null-delimited
field matches the pattern, stopping there (the result does not depend on
the rest of the table); the spec's scenario (pid 42, descriptor 5,
`/usr/bin/mpv\x00--fullscreen`, pattern mpv) yields `(42, 5)`; and the
pattern is matched against the executable field only, so `mpv` occurring
solely in the arguments does not match. -/
theorem correlator_first_match (fs : ProcFS) (m : List Nat → Bool)
    (fn p pid fd : String) (fds rest : List String)
    (h1 : strIsDigit p = true) (h2 : fs.listFd (fdDir p) = some fds)
    (h3 : scanFds fs m fn p fds = FdScan.found pid fd) :
    scanProcs fs m fn (p :: rest) = some (pid, fd) ∧
    is_being_played procfsC4 matcherMpv "/media/show.mkv" = some ("42", "5") ∧
    is_being_played procfsVlcArgv matcherMpv "/media/show.mkv" = none := by
  refine ⟨?_, by decide, by decide⟩
  simp [scanProcs, h1, h2, h3]

/-- Witness for `correlator_first_match` at the scenario's process table. -/
theorem correlator_first_match_witness :
    strIsDigit "42" = true ∧
    procfsC4.listFd (fdDir "42") = some ["5"] ∧
    scanFds procfsC4 matcherMpv "/media/show.mkv" "42" ["5"] = FdScan.found "42" "5" ∧
    scanProcs procfsC4 matcherMpv "/media/show.mkv" ["42"] = some ("42", "5") :=
  ⟨by decide, by decide, by decide,
   (correlator_first_match procfsC4 matcherMpv "/media/show.mkv" "42" "42" "5" ["5"] []
     (by decide) (by decide) (by decide)).1⟩

/-- C6: a per-process access failure — an unreadable descriptor listing,
a failing readlink, or an unreadable command line — skips only that
process; the scan continues with the remaining processes, never aborts,
and when no process matches after exhausting the table the result is
"not found". -/
theorem correlator_error_skip (fs : ProcFS) (m : List Nat → Bool)
    (fn p fd : String) (fds rest : List String) :
    (strIsDigit p = true → fs.listFd (fdDir p) = none →
      scanProcs fs m fn (p :: rest) = scanProcs fs m fn rest) ∧
    (strIsDigit p = true → fs.listFd (fdDir p) = some fds →
      scanFds fs m fn p fds = FdScan.error →
      scanProcs fs m fn (p :: rest) = scanProcs fs m fn rest) ∧
    (fs.readlink (fdDir p ++ fd) = none →
      scanFds fs m fn p (fd :: fds) = FdScan.error) ∧
    (fs.readlink (fdDir p ++ fd) = some fn → fs.readFile (cmdlinePath p) = none →
      scanFds fs m fn p (fd :: fds) = FdScan.error) ∧
    is_being_played procfsErr matcherMpv "/media/show.mkv" = some ("43", "6") ∧
    is_being_played procfsCmdFail matcherMpv "/media/show.mkv" = none ∧
    is_being_played procfsAllFail matcherMpv "/media/show.mkv" = none := by
  refine ⟨?_, ?_, ?_, ?_, by decide, by decide, by decide⟩
  · intro h1 h2; simp [scanProcs, h1, h2]
  · intro h1 h2 h3; simp [scanProcs, h1, h2, h3]
  · intro h; simp [scanFds, h]
  · intro h1 h2; simp [scanFds, h1, h2]

/-- Witness for `correlator_error_skip`: pid 41's listing failure and pid
45's readlink failure are each skipped while the scan goes on to find pid
43, and pid 60's unreadable command line leaves the table exhausted. -/
theorem correlator_error_skip_witness :
    strIsDigit "41" = true ∧
    procfsErr.listFd (fdDir "41") = none ∧
    scanProcs procfsErr matcherMpv "/media/show.mkv" ["41", "45", "43"] =
      scanProcs procfsErr matcherMpv "/media/show.mkv" ["45", "43"] ∧
    scanFds procfsErr matcherMpv "/media/show.mkv" "45" ["9"] = FdScan.error ∧
    scanProcs procfsErr matcherMpv "/media/show.mkv" ["45", "43"] =
      scanProcs procfsErr matcherMpv "/media/show.mkv" ["43"] ∧
    scanFds procfsAllFail matcherMpv "/media/show.mkv" "50" ["3"] = FdScan.error ∧
    scanFds procfsCmdFail matcherMpv "/media/show.mkv" "60" ["2"] = FdScan.error :=
  ⟨by decide, by decide,
   (correlator_error_skip procfsErr matcherMpv "/media/show.mkv" "41" "x" []
     ["45", "43"]).1 (by decide) (by decide),
   (correlator_error_skip procfsErr matcherMpv "/media/show.mkv" "45" "9" []
     []).2.2.1 (by decide),
   (correlator_error_skip procfsErr matcherMpv "/media/show.mkv" "45" "x" ["9"]
     ["43"]).2.1 (by decide) (by decide) (by decide),
   (correlator_error_skip procfsAllFail matcherMpv "/media/show.mkv" "50" "3" []
     []).2.2.1 (by decide),
   (correlator_error_skip procfsCmdFail matcherMpv "/media/show.mkv" "60" "2" []
     []).2.2.2.1 (by decide) (by decide)⟩

/-- C10: a process that holds the target file open but whose command name
does not match the pattern neither terminates the scan nor forces a
"not found" result: the walk continues with that process's remaining
descriptors and then with the rest of the table, so a matching process
appearing later is still returned. -/
theorem correlator_nonmatching_continues (fs : ProcFS) (m : List Nat → Bool)
    (fn p fd : String) (cl : List Nat) (fds rest : List String) :
    (fs.readlink (fdDir p ++ fd) = some fn → fs.readFile (cmdlinePath p) = some cl →
      m (takeUntilNul cl) = false →
      scanFds fs m fn p (fd :: fds) = scanFds fs m fn p fds) ∧
    (strIsDigit p = true → fs.listFd (fdDir p) = some fds →
      scanFds fs m fn p fds = FdScan.exhausted →
      scanProcs fs m fn (p :: rest) = scanProcs fs m fn rest) ∧
    is_being_played procfsVlcThenMpv matcherMpv "/media/show.mkv" = some ("44", "7") := by
  refine ⟨?_, ?_, by decide⟩
  · intro h1 h2 h3; simp [scanFds, h1, h2, h3]
  · intro h1 h2 h3; simp [scanProcs, h1, h2, h3]

/-- Witness for `correlator_nonmatching_continues`: pid 40 (vlc) holds
the target on descriptor 3, the walk continues over its descriptor 8 and
then over pid 44 (mpv), which is returned. -/
theorem correlator_nonmatching_continues_witness :
    procfsVlcThenMpv.readlink (fdDir "40" ++ "3") = some "/media/show.mkv" ∧
    procfsVlcThenMpv.readFile (cmdlinePath "40") = some vlcCmdline ∧
    matcherMpv (takeUntilNul vlcCmdline) = false ∧
    scanFds procfsVlcThenMpv matcherMpv "/media/show.mkv" "40" ["3", "8"] =
      scanFds procfsVlcThenMpv matcherMpv "/media/show.mkv" "40" ["8"] ∧
    scanFds procfsVlcThenMpv matcherMpv "/media/show.mkv" "40" ["3", "8"] =
      FdScan.exhausted ∧
    scanProcs procfsVlcThenMpv matcherMpv "/media/show.mkv" ["40", "44"] =
      scanProcs procfsVlcThenMpv matcherMpv "/media/show.mkv" ["44"] :=
  ⟨by decide, by decide, by decide,
   (correlator_nonmatching_continues procfsVlcThenMpv matcherMpv "/media/show.mkv"
     "40" "3" vlcCmdline ["8"] []).1 (by decide) (by decide) (by decide),
   by decide,
   (correlator_nonmatching_continues procfsVlcThenMpv matcherMpv "/media/show.mkv"
     "40" "x" vlcCmdline ["3", "8"] ["44"]).2.1 (by decide) (by decide) (by decide)⟩

/-- An update collaborator that marks `last_updated` when called, as the
throttling layer does after actually sending an update. -/
def updSent : Nat × Option (String × Nat) → RuntimeView → RuntimeView :=
  fun _ rs => ⟨rs.last_state, true, rs.last_show⟩

/-- An update collaborator that moves `last_state` to the "no video"
value; the runtime fields are owned by that external path, so this is an
admissible behaviour. -/
def updNoVideo : Nat × Option (String × Nat) → RuntimeView → RuntimeView :=
  fun _ rs => ⟨TRACKER_NOVIDEO, rs.last_updated, rs.last_show⟩

/-- Runtime view after an event batch started playback: a playing state,
no update sent yet. -/
def rsPlaying : RuntimeView := ⟨1, false, some ("show", 1)⟩

/-- Effect of processing an event batch that starts playback. -/
def effPlay : RuntimeView → RuntimeView := fun _ => rsPlaying

/-- Loop state at entry: indefinite timeout, "no video", nothing sent. -/
def s0Loop : LoopSt := ⟨none, ⟨TRACKER_NOVIDEO, false, none⟩⟩

/-- Counterexample to C1's timeout rule.  After events set a playing
state the timeout becomes one second; a timeout then fires and the
re-submission path runs the update collaborator; but the loop recomputes
the timeout only on the events branch, so the next wait re-uses the
one-second value even though an update was just sent
(`last_updated = true`), where the claim requires an indefinite wait —
and likewise, with a collaborator that moves the state to "no video", a
timeout fires while `last_state` is "no video" and the next wait's
timeout is still one second, not indefinite. -/
theorem observe_timeout_stale_counterexample :
    ((loop_iter updSent LoopInput.timeout
        (loop_iter updSent (LoopInput.events effPlay) s0Loop).1).1.rs.last_updated = true ∧
     (loop_iter updSent LoopInput.timeout
        (loop_iter updSent (LoopInput.events effPlay) s0Loop).1).1.timeout = some 1000) ∧
    ((loop_iter updNoVideo LoopInput.timeout
        (loop_iter updNoVideo (LoopInput.events effPlay) s0Loop).1).1.rs.last_state =
        TRACKER_NOVIDEO ∧
     (loop_iter updNoVideo LoopInput.timeout
        (loop_iter updNoVideo (LoopInput.events effPlay) s0Loop).1).1.timeout = some 1000 ∧
     (loop_iter updNoVideo LoopInput.timeout
        (loop_iter updNoVideo LoopInput.timeout
          (loop_iter updNoVideo (LoopInput.events effPlay) s0Loop).1).1).1.timeout =
        some 1000) := by
  exact ⟨⟨rfl, rfl⟩, ⟨rfl, rfl, rfl⟩⟩

/-- C1 (amended): on a timeout with no events, the last known
(state, show) pair is re-submitted to the update collaborator and the
timeout variable is left unchanged; the timeout is recomputed only after
an iteration that processed events, and is then indefinite exactly when
the resulting state is "no video" or an update was already sent, and one
second otherwise. -/
theorem observe_timeout_policy
    (upd : Nat × Option (String × Nat) → RuntimeView → RuntimeView)
    (eff : RuntimeView → RuntimeView) (s : LoopSt) :
    (loop_iter upd (LoopInput.events eff) s).1.timeout =
      (if (eff s.rs).last_state == TRACKER_NOVIDEO || (eff s.rs).last_updated
        then none else some 1000) ∧
    (loop_iter upd (LoopInput.events eff) s).2 = [] ∧
    (loop_iter upd LoopInput.timeout s).1.timeout = s.timeout ∧
    (loop_iter upd LoopInput.timeout s).2 = [(s.rs.last_state, s.rs.last_show)] ∧
    (loop_iter upd LoopInput.timeout s).1.rs =
      upd (s.rs.last_state, s.rs.last_show) s.rs :=
  ⟨rfl, rfl, rfl, rfl, rfl⟩

/-- C9: on every exit of the watch loop — the input stream ending with
the active flag cleared, or an exception raised while polling or
processing — the notifier is stopped; an exception anywhere in the loop
body terminates the run with that error, and the stop still happens. -/
theorem observe_releases_watch
    (upd : Nat × Option (String × Nat) → RuntimeView → RuntimeView)
    (rs0 : RuntimeView) (i : LoopInput) (inputs : List ObserveInput) :
    (observe_run upd rs0 inputs).notifier_stopped = true ∧
    (observe_run upd rs0 []).outcome = Except.ok ⟨none, rs0⟩ ∧
    (observe_run upd rs0 (ObserveInput.fail :: inputs)).outcome = Except.error () ∧
    (observe_run upd rs0 (ObserveInput.step i :: ObserveInput.fail :: inputs)).outcome =
      Except.error () :=
  ⟨rfl, rfl, rfl, rfl⟩

end Trackma
